import Mathlib

/-!
Verification of the MandalaNode control plane against its specification.

The definitions below are a shallow embedding of the TypeScript source:
`src/routes/upload.ts` (the deployment pipeline: manifest validation,
image build/push, Helm chart topology generation, apply, rollout wait)
and `src/init-cluster.ts` (the payment / admin handlers).  Handlers are
modelled as pure functions from their inputs (request data, database
rows, an executor oracle for shelled-out commands) to a trace of
side-effecting actions plus an HTTP-level result.
-/

namespace Mandala

/-- JavaScript string truthiness for an optional string field:
`undefined`/missing and the empty string are falsy. -/
def truthyStr : Option String → Bool
  | some s => s != ""
  | none => false

/-- JavaScript `a || b` over optional strings: `a` when truthy, else `b`. -/
def jsStrOr (a b : Option String) : Option String :=
  if truthyStr a then a else b

/-- JavaScript object spread `{ ...base, ...extra }` over string maps:
keys of `base` keep their position but `extra` wins on collision, and the
keys only in `extra` are appended. -/
def jsMerge (base extra : List (String × String)) : List (String × String) :=
  (base.map fun kv =>
    match extra.lookup kv.1 with
    | some v => (kv.1, v)
    | none => kv)
  ++ extra.filter fun kv => (base.lookup kv.1).isNone

/-- Ledger entry type column of `project_accounting` (`'credit' | 'debit'`). -/
inductive EntryType
  | credit
  | debit
deriving Repr, DecidableEq

/-- A row of the append-only `project_accounting` ledger table. -/
structure LedgerEntry where
  project_id : Nat
  type : EntryType
  amount_sats : Int
  balance_after : Int
  metadata : String
deriving Repr, DecidableEq

/-- A row of the `projects` table, as read by the handlers
(`agent_config` already parsed from JSON; a parse failure is `[]`). -/
structure Project where
  id : Nat
  project_uuid : String
  name : String := ""
  network : String
  balance : Int
  agent_config : List (String × String) := []
  requires_blockchain_funding : Bool := false
  private_key : String := ""
  frontend_custom_domain : Option String := none
  backend_custom_domain : Option String := none
deriving Repr, DecidableEq

/-- Node-level configuration read from the process environment in
`upload.ts` (`PROJECT_DEPLOYMENT_DNS_NAME`, `DOCKER_REGISTRY`,
`GPU_ENABLED`). -/
structure NodeEnv where
  projectsDomain : String
  registryHost : String := "mandala-registry:5000"
  gpuEnabled : Bool := false
deriving Repr, DecidableEq

/-- The shelled-out commands `upload.ts` issues through `runCmd`.
`buildahPush` keeps the source's two flag orders apart (`tlsFirst` is the
agent push of line 236; the frontend push of line 263 puts
`--storage-driver` first). -/
inductive Cmd
  | tarExtract (file dir : String)
  | buildahBuild (image ctx : String)
  | buildahPush (image : String) (tlsFirst : Bool)
  | helmUpgrade (rel dir ns : String)
  | kubectlRollout (rel ns : String)
deriving Repr, DecidableEq

/-- The exact command string passed to `execSync`, from the template
literals in `upload.ts`. -/
def Cmd.render : Cmd → String
  | .tarExtract f d => "tar -xzf " ++ f ++ " -C " ++ d
  | .buildahBuild i c =>
      "buildah build --storage-driver=vfs --isolation=chroot -t " ++ i ++ " " ++ c
  | .buildahPush i true =>
      "buildah push --tls-verify=false --storage-driver=vfs " ++ i
  | .buildahPush i false =>
      "buildah push --storage-driver=vfs --tls-verify=false " ++ i
  | .helmUpgrade rel dir ns =>
      "helm upgrade --install " ++ rel ++ " " ++ dir ++ " --namespace " ++ ns ++
        " --atomic --create-namespace"
  | .kubectlRollout rel ns =>
      "kubectl rollout status deployment/" ++ rel ++ "-deployment -n " ++ ns

/-- Options forwarded to `execSync` by `runCmd`; the source only ever
passes `cwd`, never a `timeout`. -/
structure ExecOptions where
  cwd : Option String := none
  timeout : Option Nat := none
deriving Repr, DecidableEq

/-- Outcome of one `execSync` call: success with stdout, or failure with
the captured stdout/stderr and the raw error message. -/
inductive ExecResult
  | ok (output : String)
  | fail (stdout stderr errMessage : String)
deriving Repr, DecidableEq

/-- `String.prototype.substring(0, n)`: the first `n` characters. -/
def takeChars (s : String) (n : Nat) : String :=
  ⟨s.data.take n⟩

/-- Character-level containment of `needle` in `hay`. -/
def strContains (hay needle : String) : Bool :=
  (List.range (hay.data.length + 1)).any fun i =>
    needle.data.isPrefixOf (hay.data.drop i)

/-- `runCmd` of `upload.ts` (lines 43-53): on failure the captured
stderr and stdout are truncated to 3000 characters and the thrown
`Error`'s message is  `Command failed (cmd): stderr || stdout || message`. -/
def runCmd (exec : Cmd → ExecResult) (c : Cmd) : Except String String :=
  match exec c with
  | .ok out => .ok out
  | .fail out err m =>
      let stderrCap := takeChars err 3000
      let stdoutCap := takeChars out 3000
      .error ("Command failed (" ++ c.render ++ "): " ++
        (if stderrCap != "" then stderrCap
         else if stdoutCap != "" then stdoutCap else m))

/-- Kubernetes resource kinds appearing in the generated Helm chart. -/
inductive ResourceKind
  | workload
  | autoscaler
  | service
  | ingress
  | statefulSet
  | persistentVolumeClaim
deriving Repr, DecidableEq

/-- The HorizontalPodAutoscaler spec of `hpa.yaml` (step 13b). -/
structure HpaSpec where
  minReplicas : Nat
  maxReplicas : Nat
  cpuTargetUtilization : Nat
deriving Repr, DecidableEq

/-- An HTTP-get probe of the main Deployment (step 13a). -/
structure ProbeSpec where
  path : String
  port : Nat
  initialDelaySeconds : Nat
  periodSeconds : Nat
deriving Repr, DecidableEq

/-- Pod-level content of a Deployment/StatefulSet workload resource. -/
structure WorkloadSpec where
  replicas : Nat := 1
  hasAgentContainer : Bool := false
  hasFrontendContainer : Bool := false
  envVars : List (String × String) := []
  containerPorts : List Nat := []
  livenessProbe : Option ProbeSpec := none
  readinessProbe : Option ProbeSpec := none
  gpuScheduling : Bool := false
  agentVolume : Bool := false
deriving Repr, DecidableEq

/-- One rendered cluster resource of the applied topology. -/
inductive Resource
  | workload (name : String) (w : WorkloadSpec)
  | autoscaler (name : String) (h : HpaSpec)
  | service (name : String) (ports : List Nat)
  | ingress (name : String) (tlsHosts ruleHosts : List String)
  | statefulSet (name pvcName pvcSize : String)
  | persistentVolumeClaim (name size : String)
deriving Repr, DecidableEq

/-- Kind of a rendered resource. -/
def Resource.kind : Resource → ResourceKind
  | .workload _ _ => .workload
  | .autoscaler _ _ => .autoscaler
  | .service _ _ => .service
  | .ingress _ _ _ => .ingress
  | .statefulSet _ _ _ => .statefulSet
  | .persistentVolumeClaim _ _ => .persistentVolumeClaim

/-- Name of a rendered resource. -/
def Resource.name : Resource → String
  | .workload n _ => n
  | .autoscaler n _ => n
  | .service n _ => n
  | .ingress n _ _ => n
  | .statefulSet n _ _ => n
  | .persistentVolumeClaim n _ => n

/-- One observable side effect of a handler, in program order.
`beginTx`/`commitTx` would delimit a database transaction; no handler in
the source ever issues them (there is no `db.transaction` call). -/
inductive Action
  | beginTx
  | commitTx
  | storeArtifact (path : String)
  | dbUpdate (descr : String)
  | logInsert (message : String)
  | updateBalance (projectId : Nat) (newBalance : Int)
  | insertAccounting (e : LedgerEntry)
  | enableIngressCall (uuid : String)
  | fundingCheck
  | fundKeyAttempt
  | writeBuildFile (path : String)
  | writeChart
  | cmdRun (c : Cmd) (o : ExecOptions)
  | applyTopology (rs : List Resource)
  | refreshAd
  | emailAdmins
deriving Repr, DecidableEq

/-- Whether an action builds or pushes a container image. -/
def Action.isBuildOrPush : Action → Bool
  | .cmdRun (.buildahBuild _ _) _ => true
  | .cmdRun (.buildahPush _ _) _ => true
  | _ => false

/-- Whether an action applies (or re-applies) the full cluster topology
(a Helm install/upgrade, i.e. a rebuild/full re-deploy of the release). -/
def Action.isFullApply : Action → Bool
  | .cmdRun (.helmUpgrade _ _ _) _ => true
  | .applyTopology _ => true
  | _ => false

/-- Whether an action is the billing gate's ingress re-enable call. -/
def Action.isEnableIngress : Action → Bool
  | .enableIngressCall _ => true
  | _ => false

/-- Bookkeeping state of one project: its balance and the append-only
`project_accounting` and `logs` tables. -/
structure DbState where
  balance : Int
  accounting : List LedgerEntry := []
  logs : List String := []
deriving Repr, DecidableEq

/-- Effect of one action on the bookkeeping state. -/
def applyAction (s : DbState) : Action → DbState
  | .updateBalance _ nb => { s with balance := nb }
  | .insertAccounting e => { s with accounting := s.accounting ++ [e] }
  | .logInsert m => { s with logs := s.logs ++ [m] }
  | _ => s

/-- Run a trace of actions over a bookkeeping state. -/
def runOps (s : DbState) (tr : List Action) : DbState :=
  tr.foldl applyAction s

/-- Result of the `POST /:projectId/pay` handler. -/
inductive PayResult
  | badRequest (error : String)
  | ok (message : String)
deriving Repr, DecidableEq

/-- The ledger row inserted by the pay handler (lines 466-473 of
`init-cluster.ts`). -/
def creditEntry (p : Project) (amount : Int) : LedgerEntry :=
  { project_id := p.id
    type := .credit
    amount_sats := amount
    balance_after := p.balance + amount
    metadata := "\x7b\"reason\":\"Admin payment\"\x7d" }

/-- The `POST /:projectId/pay` handler of `init-cluster.ts`
(lines 452-497).  `enableResult` is the boolean returned by the external
`enableIngress` helper (`utils/ingress`, only its call site is in scope). -/
def payHandler (p : Project) (amount : Int) (enableResult : Bool) :
    List Action × PayResult :=
  if amount ≤ 0 then
    ([], .badRequest "Invalid amount. Must be a positive number.")
  else
    let oldBalance := p.balance
    let newBalance := oldBalance + amount
    let base : List Action :=
      [.updateBalance p.id newBalance,
       .insertAccounting (creditEntry p amount),
       .logInsert ("Balance increased by " ++ toString amount ++
         ". New balance: " ++ toString newBalance)]
    let ingressPart : List Action :=
      if oldBalance < 0 ∧ 0 ≤ newBalance then
        [.enableIngressCall p.project_uuid,
         .logInsert (if enableResult then
             "Ingress re-enabled after payment. Balance: " ++ toString newBalance
           else
             "Unable to re-enable ingress after payment, project needs to be redeployed.")]
      else []
    (base ++ ingressPart,
     .ok ("Paid " ++ toString amount ++ " sats. New balance: " ++ toString newBalance))

/-- Claim C1's invariant, read over reachable states: after every prefix
of the handler's action trace, a balance different from the initial one
is matched by a ledger entry recording that balance. -/
def balanceLedgerCoupled (init : DbState) (tr : List Action) : Prop :=
  ∀ n : Nat, (runOps init (tr.take n)).balance ≠ init.balance →
    ∃ e ∈ (runOps init (tr.take n)).accounting,
      e.balance_after = (runOps init (tr.take n)).balance

/-- The `agent` block of an agent manifest (`utils.ts`, `AgentManifest`). -/
structure AgentSpec where
  type : String
  image : Option String := none
  dockerfile : Option String := none
  buildContext : Option String := none
  runtime : Option String := none
deriving Repr, DecidableEq

/-- The `resources` block of a manifest (`cpu`, `memory`, `gpu`). -/
structure ResourceReq where
  cpu : Option String := none
  memory : Option String := none
  gpu : Option String := none
deriving Repr, DecidableEq

/-- The `databases` block of a manifest (optional booleans). -/
structure DbFlags where
  mysql : Option Bool := none
  mongo : Option Bool := none
  redis : Option Bool := none
deriving Repr, DecidableEq

/-- The `storage` block of a manifest. -/
structure StorageSpec where
  enabled : Bool
  size : Option String := none
  mountPath : Option String := none
deriving Repr, DecidableEq

/-- The `healthCheck` block of a manifest. -/
structure HealthCheck where
  path : String
  port : Option Nat := none
  intervalSeconds : Option Nat := none
deriving Repr, DecidableEq

/-- The `frontend` block of a manifest. -/
structure FrontendSpec where
  directory : Option String := none
  image : Option String := none
deriving Repr, DecidableEq

/-- One entry of the manifest's `deployments` target list. -/
structure DeployTarget where
  provider : String
  projectID : Option String := none
  network : Option String := none
deriving Repr, DecidableEq

/-- The normalized single-service manifest `upload.ts` works with after
step 8b (the `AgentManifest` interface of `utils.ts`). -/
structure AgentManifest where
  agent : AgentSpec
  env : List (String × String) := []
  resources : Option ResourceReq := none
  ports : Option (List Nat) := none
  healthCheck : Option HealthCheck := none
  frontend : Option FrontendSpec := none
  storage : Option StorageSpec := none
  databases : Option DbFlags := none
  deployments : Option (List DeployTarget) := none
deriving Repr, DecidableEq

/-- A named service of a v2 manifest (`ServiceDefinition` in `utils.ts`). -/
structure ServiceDef where
  agent : AgentSpec
  env : List (String × String) := []
  resources : Option ResourceReq := none
  ports : Option (List Nat) := none
  healthCheck : Option HealthCheck := none
  frontend : Option FrontendSpec := none
  storage : Option StorageSpec := none
  databases : Option DbFlags := none
deriving Repr, DecidableEq

/-- The parsed `agent-manifest.json` document before normalization: the
fields read when it is treated as v1, plus the v2-only `services` map
and document-level `env`/`deployments` defaults. -/
structure RawManifest where
  schema : String
  schemaVersion : String := "1.0"
  agent : AgentSpec := { type := "custom" }
  env : List (String × String) := []
  resources : Option ResourceReq := none
  ports : Option (List Nat) := none
  healthCheck : Option HealthCheck := none
  frontend : Option FrontendSpec := none
  storage : Option StorageSpec := none
  databases : Option DbFlags := none
  deployments : Option (List DeployTarget) := none
  services : Option (List (String × ServiceDef)) := none
deriving Repr, DecidableEq

/-- `isV2Manifest` of `utils.ts`: `schemaVersion === '2.0'` and a
non-null `services` map. -/
def isV2Manifest (r : RawManifest) : Bool :=
  r.schemaVersion == "2.0" && r.services.isSome

/-- Reading the raw document as a v1 manifest (`manifest = rawManifest`
in step 8b's else-branch). -/
def RawManifest.asV1 (r : RawManifest) : AgentManifest :=
  { agent := r.agent, env := r.env, resources := r.resources, ports := r.ports
    healthCheck := r.healthCheck, frontend := r.frontend, storage := r.storage
    databases := r.databases, deployments := r.deployments }

/-- Normalization of a selected v2 service (`upload.ts` lines 131-149):
document-level env is the base, the service's env wins on collision, and
the document's deployment targets are carried over. -/
def selectService (r : RawManifest) (svc : ServiceDef) : AgentManifest :=
  { agent := svc.agent
    env := jsMerge r.env svc.env
    resources := svc.resources
    ports := svc.ports
    healthCheck := svc.healthCheck
    frontend := svc.frontend
    storage := svc.storage
    databases := svc.databases
    deployments := r.deployments.map (List.map fun d =>
      { provider := d.provider, projectID := d.projectID, network := d.network }) }

/-- `manifest.resources?.gpu` truthiness (steps 8c, 13b and the GPU
scheduling block). -/
def gpuRequested (m : AgentManifest) : Bool :=
  truthyStr (m.resources.bind (·.gpu))

/-- `manifest.databases?.mysql || false` (step 13, line 310). -/
def useMySQL (m : AgentManifest) : Bool :=
  ((m.databases.bind (·.mysql)).getD false)

/-- `manifest.databases?.mongo || false` (line 311). -/
def useMongo (m : AgentManifest) : Bool :=
  ((m.databases.bind (·.mongo)).getD false)

/-- `manifest.databases?.redis || false` (line 312). -/
def useRedis (m : AgentManifest) : Bool :=
  ((m.databases.bind (·.redis)).getD false)

/-- `manifest.storage?.enabled || false` (line 313). -/
def useStorage (m : AgentManifest) : Bool :=
  ((m.storage.map (·.enabled)).getD false)

/-- `manifest.ports || (agidentity ? [3000] : [8080])` (line 314). -/
def agentPortsOf (m : AgentManifest) : List Nat :=
  m.ports.getD (if m.agent.type == "agidentity" then [3000] else [8080])

/-- Helm release name: `mandala-project-` plus the first 24 characters
of the project uuid (line 930); it is also the chart's `fullname`. -/
def fullnameOf (p : Project) : String :=
  "mandala-project-" ++ p.project_uuid.take 24

/-- Namespace for a project's release (line 929). -/
def namespaceOf (p : Project) : String :=
  "mandala-project-" ++ p.project_uuid

/-- `hpaMaxReplicas` (line 479): 1 when a GPU is requested, else 10. -/
def hpaMaxReplicas (m : AgentManifest) : Nat :=
  if gpuRequested m then 1 else 10

/-- The HorizontalPodAutoscaler rendered by `hpa.yaml` (step 13b):
`minReplicas: 1`, CPU average utilization 50, max from `hpaMaxReplicas`. -/
def hpaOf (m : AgentManifest) : HpaSpec :=
  { minReplicas := 1, maxReplicas := hpaMaxReplicas m, cpuTargetUtilization := 50 }

/-- Env var list of the agent container (steps 11 and 13): manifest env
merged with the project's `agent_config` (config wins), then the
funding-related variables when `requires_blockchain_funding` is set. -/
def workloadEnv (p : Project) (m : AgentManifest) : List (String × String) :=
  jsMerge m.env p.agent_config
  ++ (if p.requires_blockchain_funding then
        [("SERVER_PRIVATE_KEY", p.private_key), ("NETWORK", p.network)]
      else [])

/-- Liveness/readiness probes (lines 367-386): generated only when a
health check is declared; same path, port and period, initial delay 15
for liveness and 5 for readiness. -/
def probesOf (m : AgentManifest) : Option ProbeSpec × Option ProbeSpec :=
  match m.healthCheck with
  | none => (none, none)
  | some hc =>
      let hcPort := hc.port.getD (agentPortsOf m).headI
      let hcInterval := hc.intervalSeconds.getD 30
      (some { path := hc.path, port := hcPort, initialDelaySeconds := 15
              periodSeconds := hcInterval },
       some { path := hc.path, port := hcPort, initialDelaySeconds := 5
              periodSeconds := hcInterval })

/-- The main Deployment rendered by `deployment.yaml` (step 13a). -/
def mainWorkload (p : Project) (m : AgentManifest)
    (agentImage frontendImage : Option String) : Resource :=
  let probes := probesOf m
  .workload (fullnameOf p ++ "-deployment")
    { replicas := 1
      hasAgentContainer := truthyStr agentImage
      hasFrontendContainer := truthyStr frontendImage
      envVars := workloadEnv p m
      containerPorts := agentPortsOf m
      livenessProbe := probes.1
      readinessProbe := probes.2
      gpuScheduling := gpuRequested m
      agentVolume := useStorage m }

/-- Hosts of the project's TLS certificate (lines 541-551). -/
def tlsHostsOf (env : NodeEnv) (p : Project) (m : AgentManifest) : List String :=
  let ingressHost := p.project_uuid ++ "." ++ env.projectsDomain
  (if m.frontend.isSome then
     ["frontend." ++ ingressHost]
     ++ (if truthyStr p.frontend_custom_domain then
           [p.frontend_custom_domain.getD ""] else [])
   else [])
  ++ ["agent." ++ ingressHost]
  ++ (if truthyStr p.backend_custom_domain then
        [p.backend_custom_domain.getD ""] else [])

/-- Routing rule hosts of the main Ingress (lines 604-669). -/
def ruleHostsOf (env : NodeEnv) (p : Project) (m : AgentManifest) : List String :=
  let ingressHost := p.project_uuid ++ "." ++ env.projectsDomain
  (if m.frontend.isSome then
     ["frontend." ++ ingressHost]
     ++ (if truthyStr p.frontend_custom_domain then
           [p.frontend_custom_domain.getD "",
            "www." ++ p.frontend_custom_domain.getD ""] else [])
   else [])
  ++ ["agent." ++ ingressHost]
  ++ (if truthyStr p.backend_custom_domain then
        [p.backend_custom_domain.getD ""] else [])

/-- The rendered resource set the Helm apply of step 14 installs: the
always-present Deployment, HPA, Service and Ingress, the `www` Ingress
when a custom frontend domain exists, and the conditional MySQL /
MongoDB / Redis blocks and agent PVC, which render to nothing when their
flag is off (`{{- if .Values.useX }}` gates, steps 13e-13h). -/
def generateTopology (env : NodeEnv) (p : Project) (m : AgentManifest)
    (agentImage frontendImage : Option String) : List Resource :=
  let fullname := fullnameOf p
  let servicePorts :=
    (if truthyStr agentImage then agentPortsOf m else [])
    ++ (if truthyStr frontendImage then [80] else [])
  [mainWorkload p m agentImage frontendImage,
   .autoscaler (fullname ++ "-deployment") (hpaOf m),
   .service (fullname ++ "-service") servicePorts,
   .ingress (fullname ++ "-ingress") (tlsHostsOf env p m) (ruleHostsOf env p m)]
  ++ (if truthyStr p.frontend_custom_domain then
        [.ingress (fullname ++ "-www")
          ["www." ++ p.frontend_custom_domain.getD ""]
          ["www.frontend." ++ p.project_uuid ++ "." ++ env.projectsDomain]]
      else [])
  ++ (if useMySQL m then
        [.statefulSet "mysql" "mysql-data" "20Gi",
         .service "mysql-headless" [3306],
         .service "mysql" [3306]]
      else [])
  ++ (if useMongo m then
        [.statefulSet "mongo" "mongo-data" "20Gi",
         .service "mongo-headless" [27017],
         .service "mongo" [27017]]
      else [])
  ++ (if useRedis m then
        [.workload "redis" { replicas := 1, containerPorts := [6379] },
         .service "redis" [6379]]
      else [])
  ++ (if useStorage m then
        [.persistentVolumeClaim (fullname ++ "-agent-pvc")
          ((m.storage.bind (·.size)).getD "10Gi")]
      else [])

/-- `path.join` as used with the build-context and Dockerfile paths
(`'.'` joins to the directory itself). -/
def pathJoin (a b : String) : String :=
  if b == "." then a else a ++ "/" ++ b

/-- Result of the upload handler, tagged with the HTTP status family. -/
inductive UploadResult
  | badRequest (error : String)
  | unauthorized (error : String)
  | serverError (error : String)
  | ok (message agentUrl : String)
deriving Repr, DecidableEq

/-- Actions of the handler's catch block (lines 962-1002): the error is
logged to the `logs` table and admins are emailed best-effort. -/
def catchTrace (m : String) : List Action :=
  [.logInsert ("Error handling upload: " ++ m), .emailAdmins]

/-- A thrown error reaching the catch block: log + email, then the 500
response `Error handling upload: <message>`. -/
def throwResult (tr : List Action) (m : String) : List Action × UploadResult :=
  (tr ++ catchTrace m, .serverError ("Error handling upload: " ++ m))

/-- Everything the upload handler reads: request data, the database rows
it looks up, filesystem existence checks, the external wallet balance,
and the executor oracle deciding each shelled-out command's outcome. -/
structure UploadInput where
  deploymentId : String
  deployFound : Bool := true
  projectFound : Bool := true
  project : Project
  signatureValid : Bool := true
  manifestPresent : Bool := true
  rawManifest : RawManifest
  queryServiceName : Option String := none
  headerServiceName : Option String := none
  buildContextExists : Bool := true
  userDockerfileExists : Bool := true
  frontendDirExists : Bool := true
  keyBalance : Int := 1000
  exec : Cmd → ExecResult

/-- Step 8b (lines 120-153): on a v2 document the selector comes from
the query parameter or the `x-mandala-service` header and must name an
existing service; `none` is the missing/unknown-selector error. -/
def v2Selection (r : RawManifest) (q h : Option String) :
    Option (AgentManifest × Option String) :=
  if isV2Manifest r then
    let sname := jsStrOr q h
    if !truthyStr sname then none
    else
      match (r.services.getD []).lookup (sname.getD "") with
      | none => none
      | some svc => some (selectService r svc, some (sname.getD ""))
  else some (r.asV1, none)

/-- Steps 11-15b of the upload handler: env merge, optional key funding,
chart generation, the atomic Helm apply, the rollout wait and the
advertisement refresh, ending in the success response. -/
def uploadFinish (env : NodeEnv) (inp : UploadInput) (m : AgentManifest)
    (agentImage frontendImage : Option String) (tr : List Action) :
    List Action × UploadResult :=
  let p := inp.project
  let fundTrace : List Action :=
    if p.requires_blockchain_funding then
      if inp.keyBalance < 100 then [.fundingCheck, .fundKeyAttempt]
      else [.fundingCheck]
    else []
  let helmDir := "/tmp/build_" ++ inp.deploymentId ++ "/helm"
  let topo := generateTopology env p m agentImage frontendImage
  let ns := namespaceOf p
  let rel := fullnameOf p
  let ingressHost := p.project_uuid ++ "." ++ env.projectsDomain
  let tr := tr ++ fundTrace ++
    [.writeChart, .logInsert ("Helm chart generated at " ++ helmDir),
     .applyTopology topo]
  let helmCmd := Cmd.helmUpgrade rel helmDir ns
  let tr := tr ++ [.cmdRun helmCmd {}]
  match runCmd inp.exec helmCmd with
  | .error msg => throwResult tr msg
  | .ok _ =>
    let tr := tr ++ [.logInsert ("Helm release " ++ rel ++
      " deployed for project " ++ p.project_uuid)]
    let rolloutCmd := Cmd.kubectlRollout rel ns
    let tr := tr ++ [.cmdRun rolloutCmd {}]
    match runCmd inp.exec rolloutCmd with
    | .error msg => throwResult tr msg
    | .ok _ =>
      let tr := tr ++
        [.logInsert ("Project " ++ p.project_uuid ++ ", release " ++
           inp.deploymentId ++ " rolled out successfully."),
         .refreshAd]
        ++ (if m.frontend.isSome then
              [.logInsert ("Frontend URL: frontend." ++ ingressHost)]
            else [])
        ++ [.logInsert ("Agent URL: agent." ++ ingressHost)]
      (tr, .ok "Deployment completed successfully" ("agent." ++ ingressHost))

/-- The frontend part of step 10: pre-built image, or synthesize
nginx.conf + Dockerfile and build/push from the frontend directory. -/
def uploadFrontendStage (env : NodeEnv) (inp : UploadInput) (uploadDir : String)
    (m : AgentManifest) (agentImage : Option String) (tr : List Action) :
    List Action × UploadResult :=
  match m.frontend with
  | none => uploadFinish env inp m agentImage none tr
  | some fe =>
    if truthyStr fe.image then
      uploadFinish env inp m agentImage fe.image
        (tr ++ [.logInsert ("Using pre-built frontend image: " ++ fe.image.getD "")])
    else
      let fi := env.registryHost ++ "/mandala-project-" ++
        inp.project.project_uuid ++ "/frontend:" ++ inp.deploymentId
      let tr := tr ++ [.logInsert "Building frontend image..."]
      let feDir := uploadDir ++ "/" ++
        (if truthyStr fe.directory then fe.directory.getD "" else "frontend")
      if !inp.frontendDirExists then
        let msg := "Frontend directory not found but frontend config specified."
        (tr ++ [.logInsert msg], .badRequest msg)
      else
        let tr := tr ++ [.writeBuildFile (feDir ++ "/nginx.conf"),
          .writeBuildFile (feDir ++ "/Dockerfile")]
        let opts : ExecOptions := { cwd := some feDir }
        let buildCmd := Cmd.buildahBuild fi "."
        let tr := tr ++ [.cmdRun buildCmd opts]
        match runCmd inp.exec buildCmd with
        | .error msg => throwResult tr msg
        | .ok _ =>
          let tr := tr ++ [.logInsert ("Frontend image built: " ++ fi)]
          let pushCmd := Cmd.buildahPush fi false
          let tr := tr ++ [.cmdRun pushCmd opts]
          match runCmd inp.exec pushCmd with
          | .error msg => throwResult tr msg
          | .ok _ =>
            uploadFinish env inp m agentImage (some fi)
              (tr ++ [.logInsert ("Frontend image pushed: " ++ fi)])

/-- The agent part of step 10: pre-built image, or Dockerfile selection
(agidentity template / user Dockerfile / runtime synthesis) followed by
build and push. -/
def uploadAgentStage (env : NodeEnv) (inp : UploadInput) (uploadDir : String)
    (m : AgentManifest) (tr : List Action) : List Action × UploadResult :=
  if truthyStr m.agent.image then
    uploadFrontendStage env inp uploadDir m m.agent.image
      (tr ++ [.logInsert ("Using pre-built agent image: " ++ m.agent.image.getD "")])
  else
    let ai := env.registryHost ++ "/mandala-project-" ++
      inp.project.project_uuid ++ "/agent:" ++ inp.deploymentId
    let tr := tr ++ [.logInsert "Building agent image..."]
    let buildContext :=
      if truthyStr m.agent.buildContext then m.agent.buildContext.getD "" else "."
    let buildDir := pathJoin uploadDir buildContext
    if !inp.buildContextExists then
      let msg := "Build context directory \"" ++ buildContext ++
        "\" not found in artifact."
      (tr ++ [.logInsert msg], .badRequest msg)
    else
      let continueBuild : List Action → List Action × UploadResult := fun tr =>
        let buildCmd := Cmd.buildahBuild ai buildDir
        let tr := tr ++ [.cmdRun buildCmd {}]
        match runCmd inp.exec buildCmd with
        | .error msg => throwResult tr msg
        | .ok _ =>
          let tr := tr ++ [.logInsert ("Agent image built: " ++ ai)]
          let pushCmd := Cmd.buildahPush ai true
          let tr := tr ++ [.cmdRun pushCmd {}]
          match runCmd inp.exec pushCmd with
          | .error msg => throwResult tr msg
          | .ok _ =>
            uploadFrontendStage env inp uploadDir m (some ai)
              (tr ++ [.logInsert ("Agent image pushed: " ++ ai)])
      if m.agent.type == "agidentity" then
        continueBuild (tr ++ [.writeBuildFile (buildDir ++ "/Dockerfile")])
      else if truthyStr m.agent.dockerfile then
        if !inp.userDockerfileExists then
          let msg := "Specified Dockerfile \"" ++ m.agent.dockerfile.getD "" ++
            "\" not found."
          (tr ++ [.logInsert msg], .badRequest msg)
        else
          continueBuild (tr ++
            (if pathJoin uploadDir (m.agent.dockerfile.getD "") !=
                buildDir ++ "/Dockerfile" then
              [.writeBuildFile (buildDir ++ "/Dockerfile")]
            else []))
      else
        continueBuild (tr ++ [.writeBuildFile (buildDir ++ "/Dockerfile")])

/-- The upload handler of `src/routes/upload.ts`, steps 1-15b: record
and project lookup, signature check, balance gate, artifact store, tar
extraction, manifest validation and normalization, GPU capability gate,
deployment-target matching, image builds, chart generation, Helm apply,
rollout wait and advertisement refresh. -/
def uploadHandler (env : NodeEnv) (inp : UploadInput) :
    List Action × UploadResult :=
  if !inp.deployFound then ([], .badRequest "Invalid deploymentId")
  else if !inp.projectFound then ([], .badRequest "Project not found")
  else if !inp.signatureValid then ([], .unauthorized "Invalid signature")
  else if inp.project.balance < 1 then
    ([], .unauthorized ("Project balance must be at least 1 satoshi to upload a deployment. Current balance: "
      ++ toString inp.project.balance))
  else
    let filePath := "/tmp/artifact_" ++ inp.deploymentId ++ ".tgz"
    let uploadDir := "/tmp/build_" ++ inp.deploymentId
    let tr : List Action := [.storeArtifact filePath, .dbUpdate "deploys.file_path",
      .logInsert ("File uploaded successfully, saved to " ++ filePath)]
    let tarCmd := Cmd.tarExtract filePath uploadDir
    let tr := tr ++ [.cmdRun tarCmd {}]
    match runCmd inp.exec tarCmd with
    | .error msg => throwResult tr msg
    | .ok _ =>
      let tr := tr ++ [.logInsert ("Tarball extracted at " ++ uploadDir)]
      if !inp.manifestPresent then
        let msg := "agent-manifest.json not found in tarball."
        (tr ++ [.logInsert msg], .badRequest msg)
      else
        let r := inp.rawManifest
        if r.schema != "mandala-agent" then
          let msg := "Invalid schema in agent-manifest.json (expected \"mandala-agent\")"
          (tr ++ [.logInsert msg], .badRequest msg)
        else
          match v2Selection r inp.queryServiceName inp.headerServiceName with
          | none =>
            let msg := "v2 manifest requires serviceName param identifying which service to deploy"
            (tr ++ [.logInsert msg], .badRequest msg)
          | some (m, serviceName) =>
            let tr := tr ++ (match serviceName with
              | some s => [.logInsert ("v2 manifest detected, deploying service: " ++ s)]
              | none => [])
            if gpuRequested m && !env.gpuEnabled then
              (tr, .badRequest "This node does not support GPU workloads.")
            else
              match (m.deployments.getD []).find? (fun d =>
                  d.provider == "mandala" &&
                  d.projectID == some inp.project.project_uuid) with
              | none =>
                let msg := "No matching Mandala deployment config or projectID in agent-manifest.json"
                (tr ++ [.logInsert msg], .badRequest msg)
              | some dc =>
                if !truthyStr dc.projectID then
                  let msg := "No matching Mandala deployment config or projectID in agent-manifest.json"
                  (tr ++ [.logInsert msg], .badRequest msg)
                else
                  let netMismatch :=
                    match dc.network with
                    | some n => n != "" && n != inp.project.network
                    | none => false
                  if netMismatch then
                    let msg := "Network mismatch: Project is on " ++
                      inp.project.network ++ " but deployment config specifies " ++
                      (dc.network.getD "")
                    (tr ++ [.logInsert msg], .badRequest msg)
                  else
                    let tr := tr ++ (match serviceName with
                      | some _ => [.dbUpdate "deploys.service_name"]
                      | none => [])
                    uploadAgentStage env inp uploadDir m tr

/-- Error message carried by a non-success upload result. -/
def UploadResult.errorMsg : UploadResult → String
  | .badRequest e => e
  | .unauthorized e => e
  | .serverError e => e
  | .ok _ _ => ""

/-- Whether a shelled-out invocation is bounded by any timeout: either a
process-level `timeout` option, or a `--timeout` flag in the command. -/
def timeoutBounded (c : Cmd) (o : ExecOptions) : Prop :=
  o.timeout ≠ none ∨ strContains c.render "--timeout" = true

/-- Action trace of the pay handler. -/
def payTrace (p : Project) (amount : Int) (er : Bool) : List Action :=
  (payHandler p amount er).1

/-- Bookkeeping state after the pay handler's trace has fully run,
starting from the project's pre-payment balance and empty tables. -/
def payFinal (p : Project) (amount : Int) (er : Bool) : DbState :=
  runOps { balance := p.balance } (payTrace p amount er)

/-- Result of the `POST /:projectId/removeAdmin` handler. -/
inductive RemoveAdminResult
  | badRequest (error : String)
  | ok (message : String)
deriving Repr, DecidableEq

/-- The `POST /:projectId/removeAdmin` handler of `init-cluster.ts`
(lines 588-634), over the project's admin identity-key list.
`targetUser` is the resolved target (`none` when `resolveUser` finds no
registered user).  Returns the admin list after the handler and the
HTTP-level result. -/
def removeAdminHandler (admins : List String) (targetUser : Option String) :
    List String × RemoveAdminResult :=
  match targetUser with
  | none => (admins, .badRequest "Target user not registered")
  | some target =>
    if admins.length == 1 && admins.headI == target then
      (admins, .badRequest "Cannot remove last admin")
    else if !(admins.contains target) then
      (admins, .badRequest "User not an admin")
    else
      (admins.filter (· != target), .ok "Admin removed")

/-! ### Concrete fixtures -/

/-- A project with balance −1, used in the billing-gate scenarios. -/
def negBalanceProject : Project :=
  { id := 1, project_uuid := "proj-neg", network := "mainnet", balance := -1 }

/-- A funded project used in the deployment scenarios. -/
def fundedProject : Project :=
  { id := 2, project_uuid := "uuid8", network := "mainnet", balance := 10 }

/-- A project with balance 0, below the upload gate. -/
def brokeProject : Project :=
  { id := 3, project_uuid := "proj-broke", network := "mainnet", balance := 0 }

/-- A node without GPU capability. -/
def plainEnv : NodeEnv := { projectsDomain := "apps.example" }

/-- A deployment target matching `fundedProject` on mainnet. -/
def mainnetTarget : DeployTarget :=
  { provider := "mandala", projectID := some "uuid8", network := some "mainnet" }

/-- A minimal v1 manifest with a pre-built agent image and a matching
mainnet target. -/
def prebuiltRaw : RawManifest :=
  { schema := "mandala-agent"
    agent := { type := "custom", image := some "img/agent:1" }
    deployments := some [mainnetTarget] }

/-- An upload input whose commands all succeed. -/
def okInput : UploadInput :=
  { deploymentId := "d8", project := fundedProject, rawManifest := prebuiltRaw
    exec := fun _ => .ok "" }

/-! ### C1: balance mutation vs. ledger entry pairing -/

/-- C1 (counterexample): the pay handler issues no transaction marker,
and after the prefix of its trace that contains only the balance update,
the balance is mutated (−1 → 4) while the ledger is still empty — a
reachable state with a mutated balance and no paired entry, so the
update and the insert are not executed inside one database transaction. -/
theorem pay_not_in_transaction_counterexample :
    Action.beginTx ∉ payTrace negBalanceProject 5 true ∧
    ¬ balanceLedgerCoupled { balance := -1 } (payTrace negBalanceProject 5 true) := by
  constructor
  · decide
  · intro h
    have hacc : (runOps { balance := -1 }
        ((payTrace negBalanceProject 5 true).take 1)).accounting = [] := by decide
    have h1 := h 1 (by decide)
    rw [hacc] at h1
    simp at h1

/-- C1 (amended): the pay handler performs the balance update and the
ledger insert as two consecutive sequential statements with no
transaction wrapper; when its trace runs to completion the final state
pairs the new balance with exactly one credit ledger entry recording it. -/
theorem pay_balance_update_paired_sequentially (p : Project) (amount : Int)
    (er : Bool) (h : 0 < amount) :
    Action.beginTx ∉ payTrace p amount er ∧
    (payTrace p amount er).take 2 =
      [Action.updateBalance p.id (p.balance + amount),
       Action.insertAccounting (creditEntry p amount)] ∧
    (payFinal p amount er).balance = p.balance + amount ∧
    (payFinal p amount er).accounting = [creditEntry p amount] := by
  have hne : ¬ amount ≤ 0 := not_le.mpr h
  by_cases hc : p.balance < 0 ∧ 0 ≤ p.balance + amount <;>
    simp [payTrace, payFinal, payHandler, hne, hc, runOps, applyAction]

/-- Witness for `pay_balance_update_paired_sequentially` at the −1 + 5
scenario. -/
theorem pay_balance_update_paired_sequentially_witness :
    (0 : Int) < 5 ∧
    (Action.beginTx ∉ payTrace negBalanceProject 5 true ∧
     (payTrace negBalanceProject 5 true).take 2 =
       [Action.updateBalance negBalanceProject.id (negBalanceProject.balance + 5),
        Action.insertAccounting (creditEntry negBalanceProject 5)] ∧
     (payFinal negBalanceProject 5 true).balance = negBalanceProject.balance + 5 ∧
     (payFinal negBalanceProject 5 true).accounting = [creditEntry negBalanceProject 5]) :=
  ⟨by norm_num, pay_balance_update_paired_sequentially negBalanceProject 5 true (by norm_num)⟩

/-! ### C2: crossing credit re-enables ingress only -/

/-- C2: for a tenant at balance −1, a credit of 5 yields balance 4 with
exactly one credit ledger entry of amount 5 and balance_after 4 and
exactly one ingress re-enable call; in general a positive credit that
moves the balance from below 0 to at least 0 triggers exactly one
ingress re-enable and no image build/push and no full topology apply. -/
theorem pay_crossing_credit_reenables_ingress_only :
    (payFinal negBalanceProject 5 true).balance = 4 ∧
    (payFinal negBalanceProject 5 true).accounting = [creditEntry negBalanceProject 5] ∧
    (creditEntry negBalanceProject 5).type = .credit ∧
    (creditEntry negBalanceProject 5).amount_sats = 5 ∧
    (creditEntry negBalanceProject 5).balance_after = 4 ∧
    (payTrace negBalanceProject 5 true).countP (·.isEnableIngress) = 1 ∧
    (∀ (p : Project) (a : Int) (er : Bool), 0 < a → p.balance < 0 → 0 ≤ p.balance + a →
      (payTrace p a er).countP (·.isEnableIngress) = 1 ∧
      (payTrace p a er).countP (·.isBuildOrPush) = 0 ∧
      (payTrace p a er).countP (·.isFullApply) = 0) := by
  refine ⟨by decide, by decide, by decide, by decide, by decide, by decide, ?_⟩
  intro p a er ha hb hc
  have hne : ¬ a ≤ 0 := not_le.mpr ha
  have hcross : p.balance < 0 ∧ 0 ≤ p.balance + a := ⟨hb, hc⟩
  simp [payTrace, payHandler, hne, hcross, List.countP_cons, List.countP_nil,
    Action.isEnableIngress, Action.isBuildOrPush, Action.isFullApply]

/-- Witness for `pay_crossing_credit_reenables_ingress_only`'s general
part at the −1 + 5 scenario. -/
theorem pay_crossing_credit_reenables_ingress_only_witness :
    (0 : Int) < 5 ∧ negBalanceProject.balance < 0 ∧ 0 ≤ negBalanceProject.balance + 5 ∧
    ((payTrace negBalanceProject 5 true).countP (·.isEnableIngress) = 1 ∧
     (payTrace negBalanceProject 5 true).countP (·.isBuildOrPush) = 0 ∧
     (payTrace negBalanceProject 5 true).countP (·.isFullApply) = 0) :=
  ⟨by norm_num, by decide, by decide,
   pay_crossing_credit_reenables_ingress_only.2.2.2.2.2.2 negBalanceProject 5 true
     (by norm_num) (by decide) (by decide)⟩

/-! ### C9: balance gate on upload -/

/-- C9: a well-formed upload request (valid deployment record, project
and signature) whose project balance is below 1 satoshi is rejected with
the 401 balance error and an empty effect trace: no artifact stored, no
manifest validated, no image built or pushed, no cluster apply. -/
theorem upload_balance_gate_rejects (env : NodeEnv) (inp : UploadInput)
    (h1 : inp.deployFound = true) (h2 : inp.projectFound = true)
    (h3 : inp.signatureValid = true) (h4 : inp.project.balance < 1) :
    (uploadHandler env inp).2 = .unauthorized
      ("Project balance must be at least 1 satoshi to upload a deployment. Current balance: "
        ++ toString inp.project.balance) ∧
    (uploadHandler env inp).1 = [] := by
  simp [uploadHandler, h1, h2, h3, h4]

/-- The zero-balance upload request used as witness input for C9. -/
def brokeInput : UploadInput :=
  { deploymentId := "d9", project := brokeProject, rawManifest := prebuiltRaw
    exec := fun _ => .ok "" }

/-- Witness for `upload_balance_gate_rejects` at a zero-balance project. -/
theorem upload_balance_gate_rejects_witness :
    brokeInput.deployFound = true ∧
    brokeInput.projectFound = true ∧
    brokeInput.signatureValid = true ∧
    brokeInput.project.balance < 1 ∧
    ((uploadHandler plainEnv brokeInput).2 = .unauthorized
      ("Project balance must be at least 1 satoshi to upload a deployment. Current balance: "
        ++ toString brokeInput.project.balance) ∧
     (uploadHandler plainEnv brokeInput).1 = []) :=
  ⟨rfl, rfl, rfl, by decide,
   upload_balance_gate_rejects plainEnv brokeInput rfl rfl rfl (by decide)⟩

/-! ### C10: last-admin guard -/

/-- C10: over a duplicate-free non-empty admin list, the removeAdmin
handler always leaves at least one admin, and when the list has exactly
one admin and the target is that admin it refuses with the
`Cannot remove last admin` error and no state change. -/
theorem remove_admin_keeps_nonempty (admins : List String) (target : Option String)
    (h1 : admins ≠ []) (h2 : admins.Nodup) :
    (removeAdminHandler admins target).1 ≠ [] ∧
    (∀ a, admins = [a] →
      removeAdminHandler admins (some a) = ([a], .badRequest "Cannot remove last admin")) := by
  constructor
  · cases target with
    | none => simpa [removeAdminHandler] using h1
    | some t =>
      simp only [removeAdminHandler]
      split
      · exact h1
      · rename_i hguard
        split
        · exact h1
        · rename_i hmem
          have hmem' : t ∈ admins := by simpa using hmem
          match admins, h2, hmem' with
          | [], _, hm => exact absurd hm (List.not_mem_nil t)
          | [x], _, hm =>
            have hx : t = x := by simpa using hm
            subst hx
            simp at hguard
          | x :: y :: rest, hnd, _ =>
            have hxy : x ≠ y := by
              rw [List.nodup_cons] at hnd
              intro he
              exact hnd.1 (by simp [he])
            by_cases hxt : x = t
            · subst hxt
              have hy : y ∈ (x :: y :: rest).filter (· != x) := by
                simp [List.mem_filter, bne_iff_ne, Ne.symm hxy]
              exact List.ne_nil_of_mem hy
            · have hx : x ∈ (x :: y :: rest).filter (· != t) := by
                simp [List.mem_filter, bne_iff_ne, hxt]
              exact List.ne_nil_of_mem hx
  · intro a ha
    subst ha
    simp [removeAdminHandler]

/-- Witness for `remove_admin_keeps_nonempty` on a two-admin project. -/
theorem remove_admin_keeps_nonempty_witness :
    (["alice", "bob"] : List String) ≠ [] ∧ (["alice", "bob"] : List String).Nodup ∧
    ((removeAdminHandler ["alice", "bob"] (some "alice")).1 ≠ [] ∧
     (∀ a, (["alice", "bob"] : List String) = [a] →
       removeAdminHandler ["alice", "bob"] (some a) =
         ([a], .badRequest "Cannot remove last admin"))) :=
  ⟨by decide, by decide,
   remove_admin_keeps_nonempty ["alice", "bob"] (some "alice") (by decide) (by decide)⟩

/-! ### C3: stateless manifests yield a stateless topology -/

/-- Every chart-scoped resource name extends the 16-character
`mandala-project-` prefix, so it can never equal a short fixed name such
as `mysql` or `redis`. -/
lemma fullname_suffix_ne (p : Project) (suf s : String) (hs : s.length < 16) :
    fullnameOf p ++ suf ≠ s := by
  intro he
  simp only [fullnameOf] at he
  have hlen := congrArg String.length he
  rw [String.length_append, String.length_append] at hlen
  have h16 : ("mandala-project-" : String).length = 16 := rfl
  omega

/-- The service ports of the chart's headless Service (step 13c). -/
def servicePortsOf (m : AgentManifest) (ai fi : Option String) : List Nat :=
  (if truthyStr ai then agentPortsOf m else [])
  ++ (if truthyStr fi then [80] else [])

set_option maxRecDepth 4000 in
set_option maxHeartbeats 800000 in
/-- With all database flags off and no storage, every member of the
rendered topology is one of the four always-present resources or the
conditional `www` Ingress. -/
lemma mem_topology_stateless {env : NodeEnv} {p : Project} {m : AgentManifest}
    {ai fi : Option String}
    (h1 : useMySQL m = false) (h2 : useMongo m = false)
    (h3 : useRedis m = false) (h4 : useStorage m = false)
    {r : Resource} (hr : r ∈ generateTopology env p m ai fi) :
    r = mainWorkload p m ai fi ∨
    r = .autoscaler (fullnameOf p ++ "-deployment") (hpaOf m) ∨
    r = .service (fullnameOf p ++ "-service") (servicePortsOf m ai fi) ∨
    r = .ingress (fullnameOf p ++ "-ingress") (tlsHostsOf env p m) (ruleHostsOf env p m) ∨
    r = .ingress (fullnameOf p ++ "-www") ["www." ++ p.frontend_custom_domain.getD ""]
      ["www.frontend." ++ p.project_uuid ++ "." ++ env.projectsDomain] := by
  cases hfc : truthyStr p.frontend_custom_domain
  · simp [generateTopology, h1, h2, h3, h4, hfc] at hr
    rcases hr with rfl | rfl | rfl | rfl <;> simp [servicePortsOf, mainWorkload]
  · simp [generateTopology, h1, h2, h3, h4, hfc] at hr
    rcases hr with rfl | rfl | rfl | rfl | rfl <;> simp [servicePortsOf, mainWorkload]

/-- C3: when the mysql/mongo/redis database flags are all false and no
storage is declared, the rendered topology consists exactly of the
kinds Workload, Autoscaler, Service and Ingress — each present — with
no StatefulSet, no PersistentVolumeClaim, and none of the database
workload/service names (`mysql`, `mongo`, `redis`, their headless
services). -/
theorem topology_stateless_kinds (env : NodeEnv) (p : Project) (m : AgentManifest)
    (ai fi : Option String)
    (h1 : useMySQL m = false) (h2 : useMongo m = false)
    (h3 : useRedis m = false) (h4 : useStorage m = false) :
    (∀ r ∈ generateTopology env p m ai fi,
        r.kind = .workload ∨ r.kind = .autoscaler ∨ r.kind = .service ∨ r.kind = .ingress) ∧
    (∃ r ∈ generateTopology env p m ai fi, r.kind = .workload) ∧
    (∃ r ∈ generateTopology env p m ai fi, r.kind = .autoscaler) ∧
    (∃ r ∈ generateTopology env p m ai fi, r.kind = .service) ∧
    (∃ r ∈ generateTopology env p m ai fi, r.kind = .ingress) ∧
    (∀ r ∈ generateTopology env p m ai fi,
        r.kind ≠ .statefulSet ∧ r.kind ≠ .persistentVolumeClaim ∧
        r.name ∉ ["mysql", "mysql-headless", "mongo", "mongo-headless", "redis"]) := by
  refine ⟨?_, ?_, ?_, ?_, ?_, ?_⟩
  · intro r hr
    rcases mem_topology_stateless h1 h2 h3 h4 hr with rfl | rfl | rfl | rfl | rfl <;>
      simp [Resource.kind, mainWorkload]
  · exact ⟨mainWorkload p m ai fi, by simp [generateTopology],
      by simp [mainWorkload, Resource.kind]⟩
  · exact ⟨.autoscaler (fullnameOf p ++ "-deployment") (hpaOf m),
      by simp [generateTopology], rfl⟩
  · exact ⟨.service (fullnameOf p ++ "-service") (servicePortsOf m ai fi),
      by simp [generateTopology, servicePortsOf], rfl⟩
  · exact ⟨.ingress (fullnameOf p ++ "-ingress") (tlsHostsOf env p m) (ruleHostsOf env p m),
      by simp [generateTopology], rfl⟩
  · intro r hr
    rcases mem_topology_stateless h1 h2 h3 h4 hr with rfl | rfl | rfl | rfl | rfl <;>
    · refine ⟨by simp [Resource.kind, mainWorkload], by simp [Resource.kind, mainWorkload], ?_⟩
      simp only [Resource.name, mainWorkload, List.mem_cons, List.not_mem_nil,
        not_or, or_false]
      refine ⟨?_, ?_, ?_, ?_, ?_⟩ <;>
        exact fullname_suffix_ne p _ _ (by decide)

/-- The topology of the stateless witness manifest. -/
def statelessTopo : List Resource :=
  generateTopology plainEnv fundedProject prebuiltRaw.asV1 (some "img/agent:1") none

/-- Witness for `topology_stateless_kinds` on the stateless fixture. -/
theorem topology_stateless_kinds_witness :
    useMySQL prebuiltRaw.asV1 = false ∧ useMongo prebuiltRaw.asV1 = false ∧
    useRedis prebuiltRaw.asV1 = false ∧ useStorage prebuiltRaw.asV1 = false ∧
    ((∀ r ∈ statelessTopo,
        r.kind = .workload ∨ r.kind = .autoscaler ∨ r.kind = .service ∨ r.kind = .ingress) ∧
     (∃ r ∈ statelessTopo, r.kind = .workload) ∧
     (∃ r ∈ statelessTopo, r.kind = .autoscaler) ∧
     (∃ r ∈ statelessTopo, r.kind = .service) ∧
     (∃ r ∈ statelessTopo, r.kind = .ingress) ∧
     (∀ r ∈ statelessTopo,
        r.kind ≠ .statefulSet ∧ r.kind ≠ .persistentVolumeClaim ∧
        r.name ∉ ["mysql", "mysql-headless", "mongo", "mongo-headless", "redis"])) :=
  ⟨rfl, rfl, rfl, rfl,
   topology_stateless_kinds plainEnv fundedProject prebuiltRaw.asV1
     (some "img/agent:1") none rfl rfl rfl rfl⟩

/-! ### C4: autoscaler bounds and the GPU cap -/

/-- A GPU-capable node. -/
def gpuCapableEnv : NodeEnv := { projectsDomain := "apps.example", gpuEnabled := true }

/-- The project used in the GPU deployment scenario. -/
def gpuProject : Project :=
  { id := 4, project_uuid := "uuid-gpu", network := "mainnet", balance := 10 }

/-- The GPU manifest's deployment target. -/
def gpuTarget : DeployTarget :=
  { provider := "mandala", projectID := some "uuid-gpu", network := some "mainnet" }

/-- The GPU resource request (`resources.gpu = "1"`). -/
def gpuResourceReq : ResourceReq := { gpu := some "1" }

/-- A v1 manifest requesting one GPU, with a pre-built agent image and a
matching mainnet target. -/
def gpuRaw : RawManifest :=
  { schema := "mandala-agent"
    agent := { type := "custom", image := some "img/agent:1" }
    resources := some gpuResourceReq
    deployments := some [gpuTarget] }

/-- The GPU upload request, all commands succeeding. -/
def gpuInput : UploadInput :=
  { deploymentId := "d4", project := gpuProject, rawManifest := gpuRaw
    exec := fun _ => .ok "" }

/-- C4: every generated Autoscaler scales from exactly 1 replica on CPU
utilization up to 10, except that a GPU request caps the maximum at
exactly 1; the Autoscaler is part of every rendered topology; and the
GPU-requesting manifest submitted to a GPU-capable node deploys
successfully, applying a topology whose Autoscaler maximum is 1. -/
theorem autoscaler_bounds_and_gpu_cap :
    (∀ m : AgentManifest,
      (hpaOf m).minReplicas = 1 ∧ (hpaOf m).cpuTargetUtilization = 50 ∧
      (gpuRequested m = false → (hpaOf m).maxReplicas = 10) ∧
      (gpuRequested m = true → (hpaOf m).maxReplicas = 1)) ∧
    (∀ (env : NodeEnv) (p : Project) (m : AgentManifest) (ai fi : Option String),
      Resource.autoscaler (fullnameOf p ++ "-deployment") (hpaOf m) ∈
        generateTopology env p m ai fi) ∧
    gpuRequested gpuRaw.asV1 = true ∧ gpuCapableEnv.gpuEnabled = true ∧
    (uploadHandler gpuCapableEnv gpuInput).2 =
      .ok "Deployment completed successfully" "agent.uuid-gpu.apps.example" ∧
    Action.applyTopology (generateTopology gpuCapableEnv gpuProject gpuRaw.asV1
      (some "img/agent:1") none) ∈ (uploadHandler gpuCapableEnv gpuInput).1 ∧
    (hpaOf gpuRaw.asV1).maxReplicas = 1 := by
  refine ⟨?_, ?_, by decide, rfl, ?_, ?_, by decide⟩
  · intro m
    refine ⟨rfl, rfl, ?_, ?_⟩ <;> intro h <;> simp [hpaOf, hpaMaxReplicas, h]
  · intro env p m ai fi
    simp [generateTopology]
  · set_option maxRecDepth 100000 in decide
  · set_option maxRecDepth 100000 in decide

/-- Witness for `autoscaler_bounds_and_gpu_cap`'s conditional parts: the
non-GPU fixture gets max 10, the GPU fixture max 1. -/
theorem autoscaler_bounds_and_gpu_cap_witness :
    gpuRequested prebuiltRaw.asV1 = false ∧
    (hpaOf prebuiltRaw.asV1).maxReplicas = 10 ∧
    gpuRequested gpuRaw.asV1 = true ∧
    (hpaOf gpuRaw.asV1).maxReplicas = 1 ∧
    Resource.autoscaler (fullnameOf fundedProject ++ "-deployment") (hpaOf prebuiltRaw.asV1) ∈
      statelessTopo :=
  ⟨rfl,
   (autoscaler_bounds_and_gpu_cap.1 prebuiltRaw.asV1).2.2.1 rfl,
   rfl,
   (autoscaler_bounds_and_gpu_cap.1 gpuRaw.asV1).2.2.2 rfl,
   autoscaler_bounds_and_gpu_cap.2.1 plainEnv fundedProject prebuiltRaw.asV1
     (some "img/agent:1") none⟩

/-! ### C5: deployment-target matching is first-match, not any-match -/

/-- A mainnet project used in the target-matching scenarios. -/
def net5Project : Project :=
  { id := 5, project_uuid := "uuid5", network := "mainnet", balance := 10 }

/-- A target matching the project id but declaring testnet. -/
def testnetTarget5 : DeployTarget :=
  { provider := "mandala", projectID := some "uuid5", network := some "testnet" }

/-- A target fully matching the project id and its mainnet network. -/
def mainnetTarget5 : DeployTarget :=
  { provider := "mandala", projectID := some "uuid5", network := some "mainnet" }

/-- A manifest listing a wrong-network target before a fully matching
one. -/
def twoTargetRaw : RawManifest :=
  { schema := "mandala-agent"
    agent := { type := "custom", image := some "img/agent:1" }
    deployments := some [testnetTarget5, mainnetTarget5] }

/-- Upload of `twoTargetRaw` by `net5Project`, all commands succeeding. -/
def twoTargetInput : UploadInput :=
  { deploymentId := "d5", project := net5Project, rawManifest := twoTargetRaw
    exec := fun _ => .ok "" }

/-- C5 (counterexample): a manifest CAN declare a target that matches
the node's tenant id and network (the second entry) and still fail with
the network-mismatch error, because matching selects the first entry
with the right provider and project id and only then checks its
network.  So "succeeds whenever at least one target matches id and
network" is false; no build is attempted. -/
theorem target_match_not_any_counterexample :
    (∃ d ∈ twoTargetRaw.asV1.deployments.getD [],
       d.provider = "mandala" ∧ d.projectID = some net5Project.project_uuid ∧
       d.network = some net5Project.network) ∧
    (uploadHandler plainEnv twoTargetInput).2 = .badRequest
      "Network mismatch: Project is on mainnet but deployment config specifies testnet" ∧
    (uploadHandler plainEnv twoTargetInput).1.countP (·.isBuildOrPush) = 0 := by
  refine ⟨?_, ?_, ?_⟩ <;> set_option maxRecDepth 100000 in decide

/-- If the first `n` characters differ, appending to the left string
cannot produce the right string. -/
lemma append_left_take_ne (a b c : String) (n : Nat) (hn : n ≤ a.data.length)
    (h : a.data.take n ≠ c.data.take n) : a ++ b ≠ c := by
  intro he
  apply h
  have hd : a.data ++ b.data = c.data := by
    have hq := congrArg String.data he
    rwa [String.data_append] at hq
  rw [← hd, List.take_append_of_le_length hn]

/-- C5 (amended): target validation passes step 9 based on the FIRST
declared target whose provider is `mandala` and whose projectID equals
the node's tenant id: if no such entry exists the distinct
no-matching-target error is returned, and if that first entry declares a
non-empty network different from the project's, the network-mismatch
error is returned; both are terminal with no image built or pushed, and
the two error messages are distinct. -/
theorem target_validation_first_match (env : NodeEnv) (inp : UploadInput) (out : String)
    (h1 : inp.deployFound = true) (h2 : inp.projectFound = true)
    (h3 : inp.signatureValid = true) (h4 : ¬ inp.project.balance < 1)
    (h5 : inp.manifestPresent = true)
    (h6 : inp.rawManifest.schema = "mandala-agent")
    (h7 : isV2Manifest inp.rawManifest = false)
    (h8 : (gpuRequested inp.rawManifest.asV1 && !env.gpuEnabled) = false)
    (h9 : inp.exec (Cmd.tarExtract ("/tmp/artifact_" ++ inp.deploymentId ++ ".tgz")
      ("/tmp/build_" ++ inp.deploymentId)) = ExecResult.ok out) :
    ((inp.rawManifest.asV1.deployments.getD []).find? (fun d =>
        d.provider == "mandala" && d.projectID == some inp.project.project_uuid) = none →
      (uploadHandler env inp).2 = .badRequest
        "No matching Mandala deployment config or projectID in agent-manifest.json" ∧
      (uploadHandler env inp).1.countP (·.isBuildOrPush) = 0) ∧
    (∀ dc, (inp.rawManifest.asV1.deployments.getD []).find? (fun d =>
        d.provider == "mandala" && d.projectID == some inp.project.project_uuid) = some dc →
      truthyStr dc.projectID = true →
      (∀ n, dc.network = some n → n ≠ "" ∧ n ≠ inp.project.network) →
      dc.network ≠ none →
      (uploadHandler env inp).2 = .badRequest ("Network mismatch: Project is on " ++
        inp.project.network ++ " but deployment config specifies " ++ (dc.network.getD "")) ∧
      (uploadHandler env inp).1.countP (·.isBuildOrPush) = 0) ∧
    (∀ s, ("Network mismatch: Project is on " ++ s) ≠
      "No matching Mandala deployment config or projectID in agent-manifest.json") := by
  refine ⟨?_, ?_, ?_⟩
  · intro hfind
    constructor <;>
      simp [uploadHandler, runCmd, v2Selection, h1, h2, h3, h4, h5, h6, h7, h8, h9,
        hfind, Action.isBuildOrPush]
  · intro dc hfind hpid hnet hnn
    obtain ⟨n, hn⟩ : ∃ n, dc.network = some n := by
      cases hdcn : dc.network
      · exact absurd hdcn hnn
      · exact ⟨_, rfl⟩
    obtain ⟨hne, hnp⟩ := hnet n hn
    have hb : (match dc.network with
        | some n => n != "" && n != inp.project.network
        | none => false) = true := by
      rw [hn]
      simp [bne_iff_ne, hne, hnp]
    constructor <;>
      simp [uploadHandler, runCmd, v2Selection, h1, h2, h3, h4, h5, h6, h7, h8, h9,
        hfind, hpid, hb, hn, hne, hnp, Action.isBuildOrPush]
  · intro s
    exact append_left_take_ne _ s _ 3 (by decide) (by decide)

/-- A manifest whose only target matches the project id but declares
testnet. -/
def mismatchOnlyRaw : RawManifest :=
  { schema := "mandala-agent"
    agent := { type := "custom", image := some "img/agent:1" }
    deployments := some [testnetTarget5] }

/-- Upload of `mismatchOnlyRaw` by `net5Project`. -/
def mismatchOnlyInput : UploadInput :=
  { deploymentId := "d5b", project := net5Project, rawManifest := mismatchOnlyRaw
    exec := fun _ => .ok "" }

/-- Witness for `target_validation_first_match` on the single
wrong-network target. -/
theorem target_validation_first_match_witness :
    mismatchOnlyInput.deployFound = true ∧
    ¬ mismatchOnlyInput.project.balance < 1 ∧
    isV2Manifest mismatchOnlyInput.rawManifest = false ∧
    (((mismatchOnlyInput.rawManifest.asV1.deployments.getD []).find? (fun d =>
        d.provider == "mandala" &&
        d.projectID == some mismatchOnlyInput.project.project_uuid) = none →
      (uploadHandler plainEnv mismatchOnlyInput).2 = .badRequest
        "No matching Mandala deployment config or projectID in agent-manifest.json" ∧
      (uploadHandler plainEnv mismatchOnlyInput).1.countP (·.isBuildOrPush) = 0) ∧
     (∀ dc, (mismatchOnlyInput.rawManifest.asV1.deployments.getD []).find? (fun d =>
        d.provider == "mandala" &&
        d.projectID == some mismatchOnlyInput.project.project_uuid) = some dc →
      truthyStr dc.projectID = true →
      (∀ n, dc.network = some n → n ≠ "" ∧ n ≠ mismatchOnlyInput.project.network) →
      dc.network ≠ none →
      (uploadHandler plainEnv mismatchOnlyInput).2 = .badRequest
        ("Network mismatch: Project is on " ++ mismatchOnlyInput.project.network ++
         " but deployment config specifies " ++ (dc.network.getD "")) ∧
      (uploadHandler plainEnv mismatchOnlyInput).1.countP (·.isBuildOrPush) = 0) ∧
     (∀ s, ("Network mismatch: Project is on " ++ s) ≠
       "No matching Mandala deployment config or projectID in agent-manifest.json")) :=
  ⟨rfl, by decide, rfl,
   target_validation_first_match plainEnv mismatchOnlyInput "" rfl rfl rfl (by decide)
     rfl rfl rfl (by decide) rfl⟩

/-! ### C6: v2 manifests without a valid service selector build nothing -/

/-- C6: a v2 (multi-service) manifest whose service selector is missing
(no truthy query parameter or header) or names a service absent from
the services map fails with the missing-service-selector error, and the
effect trace contains zero image builds and zero pushes. -/
theorem v2_selector_required_no_builds (env : NodeEnv) (inp : UploadInput) (out : String)
    (h1 : inp.deployFound = true) (h2 : inp.projectFound = true)
    (h3 : inp.signatureValid = true) (h4 : ¬ inp.project.balance < 1)
    (h5 : inp.manifestPresent = true)
    (h6 : inp.rawManifest.schema = "mandala-agent")
    (h7 : isV2Manifest inp.rawManifest = true)
    (h8 : truthyStr (jsStrOr inp.queryServiceName inp.headerServiceName) = false ∨
      (inp.rawManifest.services.getD []).lookup
        ((jsStrOr inp.queryServiceName inp.headerServiceName).getD "") = none)
    (h9 : inp.exec (Cmd.tarExtract ("/tmp/artifact_" ++ inp.deploymentId ++ ".tgz")
      ("/tmp/build_" ++ inp.deploymentId)) = ExecResult.ok out) :
    (uploadHandler env inp).2 = .badRequest
      "v2 manifest requires serviceName param identifying which service to deploy" ∧
    (uploadHandler env inp).1.countP (·.isBuildOrPush) = 0 := by
  have hsel : v2Selection inp.rawManifest inp.queryServiceName inp.headerServiceName
      = none := by
    cases ht : truthyStr (jsStrOr inp.queryServiceName inp.headerServiceName)
    · simp [v2Selection, h7, ht]
    · rcases h8 with h8 | h8
      · rw [ht] at h8
        simp at h8
      · simp [v2Selection, h7, ht, h8]
  constructor <;>
    simp [uploadHandler, runCmd, h1, h2, h3, h4, h5, h6, h9, hsel, Action.isBuildOrPush]

/-- The single service of the witness v2 manifest. -/
def apiService : ServiceDef := { agent := { type := "custom", image := some "img/agent:1" } }

/-- A v2 manifest with one named service, submitted with no selector. -/
def v2Raw : RawManifest :=
  { schema := "mandala-agent", schemaVersion := "2.0"
    services := some [("api", apiService)]
    deployments := some [mainnetTarget] }

/-- Upload of `v2Raw` by `fundedProject` without any service selector. -/
def v2NoSelInput : UploadInput :=
  { deploymentId := "d6", project := fundedProject, rawManifest := v2Raw
    exec := fun _ => .ok "" }

/-- Witness for `v2_selector_required_no_builds` at the selector-less v2
upload. -/
theorem v2_selector_required_no_builds_witness :
    isV2Manifest v2NoSelInput.rawManifest = true ∧
    truthyStr (jsStrOr v2NoSelInput.queryServiceName v2NoSelInput.headerServiceName) = false ∧
    ((uploadHandler plainEnv v2NoSelInput).2 = .badRequest
      "v2 manifest requires serviceName param identifying which service to deploy" ∧
     (uploadHandler plainEnv v2NoSelInput).1.countP (·.isBuildOrPush) = 0) :=
  ⟨rfl, rfl,
   v2_selector_required_no_builds plainEnv v2NoSelInput "" rfl rfl rfl (by decide)
     rfl rfl rfl (Or.inl rfl) rfl⟩

/-! ### C7: captured build output in the failure response -/

/-- The project used in the failing-build scenario. -/
def buildFailProject : Project :=
  { id := 7, project_uuid := "uuid7", network := "mainnet", balance := 10 }

/-- Target matching `buildFailProject` on mainnet. -/
def target7 : DeployTarget :=
  { provider := "mandala", projectID := some "uuid7", network := some "mainnet" }

/-- A manifest that requires an agent image build (no pre-built image). -/
def buildRaw7 : RawManifest :=
  { schema := "mandala-agent"
    agent := { type := "custom" }
    deployments := some [target7] }

/-- An executor on which every `buildah build` fails with captured
stderr, while everything else succeeds. -/
def failingExec : Cmd → ExecResult := fun c =>
  match c with
  | .buildahBuild _ _ => .fail "" "ERROR: npm install failed" "Command failed"
  | _ => .ok ""

/-- Upload whose agent image build fails. -/
def buildFailInput : UploadInput :=
  { deploymentId := "d7", project := buildFailProject, rawManifest := buildRaw7
    exec := failingExec }

/-- The message of the error thrown by `runCmd` when the captured
(truncated) stderr is non-empty. -/
def cmdFailMsg (c : Cmd) (captured : String) : String :=
  "Command failed (" ++ c.render ++ "): " ++ captured

/-- Whether an upload result is the 500 server-error response. -/
def UploadResult.isServerError : UploadResult → Bool
  | .serverError _ => true
  | _ => false

/-- C7 (counterexample): when the agent build fails with captured
stderr, the 500 response's error message contains that captured output
verbatim — the claim that the response never contains it is false. -/
theorem build_output_echoed_counterexample :
    (uploadHandler plainEnv buildFailInput).2 = .serverError
      ("Error handling upload: " ++ cmdFailMsg
        (Cmd.buildahBuild "mandala-registry:5000/mandala-project-uuid7/agent:d7"
          "/tmp/build_d7") "ERROR: npm install failed") ∧
    strContains ((uploadHandler plainEnv buildFailInput).2.errorMsg)
      "ERROR: npm install failed" = true := by
  constructor <;> set_option maxRecDepth 1000000 in decide

/-- The captured text is bounded by 3000 characters. -/
lemma takeChars_length_le (s : String) (n : Nat) : (takeChars s n).length ≤ n := by
  simp only [takeChars, String.length]
  rw [List.length_take]
  exact min_le_left n s.data.length

/-- C7 (amended): on an agent build failure the captured stderr is
truncated to at most 3000 characters; the handler persists the full
error message (with the truncated output) to the logs table and returns
it in the 500 response — the response includes the captured output, not
only a short summary. -/
theorem build_failure_output_bounded_logged_echoed (env : NodeEnv) (inp : UploadInput)
    (out so err em : String)
    (h1 : inp.deployFound = true) (h2 : inp.projectFound = true)
    (h3 : inp.signatureValid = true) (h4 : ¬ inp.project.balance < 1)
    (h5 : inp.manifestPresent = true)
    (h6 : inp.rawManifest.schema = "mandala-agent")
    (h7 : isV2Manifest inp.rawManifest = false)
    (h8 : (gpuRequested inp.rawManifest.asV1 && !env.gpuEnabled) = false)
    (h9 : inp.exec (Cmd.tarExtract ("/tmp/artifact_" ++ inp.deploymentId ++ ".tgz")
      ("/tmp/build_" ++ inp.deploymentId)) = ExecResult.ok out)
    (hfind : (inp.rawManifest.asV1.deployments.getD []).find? (fun d =>
      d.provider == "mandala" && d.projectID == some inp.project.project_uuid) =
      some { provider := "mandala", projectID := some inp.project.project_uuid,
             network := some inp.project.network })
    (huid : inp.project.project_uuid ≠ "")
    (himg : truthyStr inp.rawManifest.asV1.agent.image = false)
    (hbc : truthyStr inp.rawManifest.asV1.agent.buildContext = false)
    (hctx : inp.buildContextExists = true)
    (htyp : (inp.rawManifest.asV1.agent.type == "agidentity") = false)
    (hdf : truthyStr inp.rawManifest.asV1.agent.dockerfile = false)
    (hfail : inp.exec (Cmd.buildahBuild
      (env.registryHost ++ "/mandala-project-" ++ inp.project.project_uuid ++
        "/agent:" ++ inp.deploymentId) ("/tmp/build_" ++ inp.deploymentId)) =
      ExecResult.fail so err em)
    (hne : takeChars err 3000 ≠ "") :
    (uploadHandler env inp).2 = .serverError ("Error handling upload: " ++
      cmdFailMsg (Cmd.buildahBuild
        (env.registryHost ++ "/mandala-project-" ++ inp.project.project_uuid ++
          "/agent:" ++ inp.deploymentId) ("/tmp/build_" ++ inp.deploymentId))
        (takeChars err 3000)) ∧
    Action.logInsert ("Error handling upload: " ++
      cmdFailMsg (Cmd.buildahBuild
        (env.registryHost ++ "/mandala-project-" ++ inp.project.project_uuid ++
          "/agent:" ++ inp.deploymentId) ("/tmp/build_" ++ inp.deploymentId))
        (takeChars err 3000)) ∈ (uploadHandler env inp).1 ∧
    (takeChars err 3000).length ≤ 3000 := by
  have hpid : truthyStr (some inp.project.project_uuid) = true := by
    simp [truthyStr, bne_iff_ne, huid]
  refine ⟨?_, ?_, takeChars_length_le err 3000⟩ <;>
    simp [uploadHandler, uploadAgentStage, runCmd, v2Selection, pathJoin, cmdFailMsg,
      throwResult, catchTrace, h1, h2, h3, h4, h5, h6, h7, h8, h9, hfind, hpid,
      himg, hbc, hctx, htyp, hdf, hfail, hne, bne_iff_ne]

/-- Witness for `build_failure_output_bounded_logged_echoed` at the
concrete failing build. -/
theorem build_failure_output_bounded_logged_echoed_witness :
    takeChars "ERROR: npm install failed" 3000 ≠ "" ∧
    ((uploadHandler plainEnv buildFailInput).2 = .serverError ("Error handling upload: " ++
      cmdFailMsg (Cmd.buildahBuild
        (plainEnv.registryHost ++ "/mandala-project-" ++ buildFailInput.project.project_uuid ++
          "/agent:" ++ buildFailInput.deploymentId) ("/tmp/build_" ++ buildFailInput.deploymentId))
        (takeChars "ERROR: npm install failed" 3000)) ∧
     Action.logInsert ("Error handling upload: " ++
      cmdFailMsg (Cmd.buildahBuild
        (plainEnv.registryHost ++ "/mandala-project-" ++ buildFailInput.project.project_uuid ++
          "/agent:" ++ buildFailInput.deploymentId) ("/tmp/build_" ++ buildFailInput.deploymentId))
        (takeChars "ERROR: npm install failed" 3000)) ∈ (uploadHandler plainEnv buildFailInput).1 ∧
     (takeChars "ERROR: npm install failed" 3000).length ≤ 3000) :=
  ⟨by decide,
   build_failure_output_bounded_logged_echoed plainEnv buildFailInput "" ""
     "ERROR: npm install failed" "Command failed" rfl rfl rfl (by decide) rfl rfl rfl rfl
     rfl (by decide) (by decide) rfl rfl rfl (by decide) rfl rfl (by decide)⟩

/-! ### C8: the rollout wait has no timeout bound -/

/-- C8 (counterexample): in a fully successful deployment, the trace
contains the rollout-status wait with empty exec options, and that wait
is not bounded by any timeout (no `timeout` option, no `--timeout`
flag), so "bounded by a timeout" is false. -/
theorem rollout_unbounded_counterexample :
    (uploadHandler plainEnv okInput).2 =
      .ok "Deployment completed successfully" "agent.uuid8.apps.example" ∧
    Action.cmdRun (Cmd.kubectlRollout (fullnameOf fundedProject) (namespaceOf fundedProject))
      { } ∈ (uploadHandler plainEnv okInput).1 ∧
    ¬ timeoutBounded (Cmd.kubectlRollout (fullnameOf fundedProject)
      (namespaceOf fundedProject)) { } := by
  refine ⟨?_, ?_, ?_⟩
  · set_option maxRecDepth 1000000 in decide
  · set_option maxRecDepth 1000000 in decide
  · simp only [timeoutBounded]
    decide

/-- C8 (amended): after a successful Helm apply the manager runs the
rollout-status wait (blocking until the primary workload is ready) with
empty exec options — in particular no process timeout — and a failure
of that wait is a hard failure: the handler returns a 500 server
error. -/
theorem rollout_wait_after_apply (env : NodeEnv) (inp : UploadInput) (m : AgentManifest)
    (ai fi : Option String) (tr : List Action) (out : String)
    (hhelm : inp.exec (Cmd.helmUpgrade (fullnameOf inp.project)
      ("/tmp/build_" ++ inp.deploymentId ++ "/helm") (namespaceOf inp.project)) =
      ExecResult.ok out) :
    Action.cmdRun (Cmd.kubectlRollout (fullnameOf inp.project) (namespaceOf inp.project))
      { } ∈ (uploadFinish env inp m ai fi tr).1 ∧
    ({ } : ExecOptions).timeout = none ∧
    (∀ so se em, inp.exec (Cmd.kubectlRollout (fullnameOf inp.project)
        (namespaceOf inp.project)) = ExecResult.fail so se em →
      ((uploadFinish env inp m ai fi tr).2).isServerError = true) := by
  refine ⟨?_, rfl, ?_⟩
  · cases hroll : inp.exec (Cmd.kubectlRollout (fullnameOf inp.project)
        (namespaceOf inp.project)) <;>
      simp [uploadFinish, runCmd, throwResult, catchTrace, hhelm, hroll]
  · intro so se em hroll
    simp [uploadFinish, runCmd, throwResult, catchTrace, hhelm, hroll,
      UploadResult.isServerError]

/-- Witness for `rollout_wait_after_apply` on the successful fixture. -/
theorem rollout_wait_after_apply_witness :
    okInput.exec (Cmd.helmUpgrade (fullnameOf okInput.project)
      ("/tmp/build_" ++ okInput.deploymentId ++ "/helm") (namespaceOf okInput.project)) =
      ExecResult.ok "" ∧
    (Action.cmdRun (Cmd.kubectlRollout (fullnameOf okInput.project)
        (namespaceOf okInput.project)) { } ∈
      (uploadFinish plainEnv okInput prebuiltRaw.asV1 (some "img/agent:1") none []).1 ∧
     ({ } : ExecOptions).timeout = none ∧
     (∀ so se em, okInput.exec (Cmd.kubectlRollout (fullnameOf okInput.project)
        (namespaceOf okInput.project)) = ExecResult.fail so se em →
      ((uploadFinish plainEnv okInput prebuiltRaw.asV1 (some "img/agent:1") none []).2).isServerError
        = true)) :=
  ⟨rfl, rollout_wait_after_apply plainEnv okInput prebuiltRaw.asV1 (some "img/agent:1")
    none [] "" rfl⟩

end Mandala
